import Mathlib

/-!
Shallow embedding of the IIS2DLPC accelerometer driver (Rust sources
`src/lib.rs` and `src/register/main.rs`) and proofs about its
register-level behaviour.

Registers are bytes held by the device; the mock transport stores the byte
written at each register address and returns the stored byte on reads
(little-endian within each byte, least-significant-bit-first field order,
the crate's default layout).  Bitfield accessors are expressed over `Nat`
with explicit `% 2^w` masking at the field width, mirroring the generated
shift-and-mask accessors of the register structs.
-/

namespace Iis2dlpc

/-- Register memory of the mock transport: a byte per register address.
Writes store the byte, reads return the stored byte. -/
abbrev Mem := Nat → Nat

/-- Read one byte at a register address (transport read). -/
def readReg (m : Mem) (addr : Nat) : Nat := m addr % 256

/-- Write one byte at a register address (transport write). -/
def writeReg (m : Mem) (addr v : Nat) : Mem :=
  fun a => if a = addr then v % 256 else m a

/-- Modelled from the spec: the register structs' field accessors are
generated by the `bitfield` attribute, which is not part of this
repository's sources.  Per the specification, a field of width `w` at bit
offset `off` decodes by shifting and masking: the value is
`(b >> off) % 2^w`. -/
def getField (off w b : Nat) : Nat := b / 2 ^ off % 2 ^ w

/-- Modelled from the spec: the generated field setter overwrites only the
field's bit span, truncating (masking) the supplied value silently to the
field's width, and leaves every other bit of the byte untouched. -/
def setField (off w b v : Nat) : Nat :=
  b % 2 ^ off + v % 2 ^ w * 2 ^ off + b / 2 ^ (off + w) * 2 ^ (off + w)

/-- Register addresses from the `Reg` enum in `register/main.rs`. -/
def Reg.Ctrl1 : Nat := 0x20

def Reg.Ctrl4Int1PadCtrl : Nat := 0x23

def Reg.Ctrl5Int2PadCtrl : Nat := 0x24

def Reg.Ctrl6 : Nat := 0x25

def Reg.OutXL : Nat := 0x28

def Reg.OutXH : Nat := 0x29

def Reg.OutYL : Nat := 0x2A

def Reg.OutYH : Nat := 0x2B

def Reg.OutZL : Nat := 0x2C

def Reg.OutZH : Nat := 0x2D

def Reg.FifoCtrl : Nat := 0x2E

def Reg.WakeUpDur : Nat := 0x35

def Reg.FreeFall : Nat := 0x36

def Reg.Ctrl7 : Nat := 0x3F

/-- CTRL1 field `lp_mode` (bits 0-1). -/
def Ctrl1.lp_mode (b : Nat) : Nat := getField 0 2 b

/-- CTRL1 field `mode` (bits 2-3). -/
def Ctrl1.mode (b : Nat) : Nat := getField 2 2 b

/-- CTRL1 field `odr` (bits 4-7). -/
def Ctrl1.odr (b : Nat) : Nat := getField 4 4 b

def Ctrl1.set_lp_mode (b v : Nat) : Nat := setField 0 2 b v

def Ctrl1.set_mode (b v : Nat) : Nat := setField 2 2 b v

/-- CTRL4_INT1_PAD_CTRL single-bit fields, in declaration order
(`int1_drdy` at bit 0 up to `int1_6d` at bit 7). -/
def Ctrl4Int1PadCtrl.int1_drdy (b : Nat) : Nat := getField 0 1 b

def Ctrl4Int1PadCtrl.int1_fth (b : Nat) : Nat := getField 1 1 b

def Ctrl4Int1PadCtrl.int1_diff5 (b : Nat) : Nat := getField 2 1 b

def Ctrl4Int1PadCtrl.int1_tap (b : Nat) : Nat := getField 3 1 b

def Ctrl4Int1PadCtrl.int1_ff (b : Nat) : Nat := getField 4 1 b

def Ctrl4Int1PadCtrl.int1_wu (b : Nat) : Nat := getField 5 1 b

def Ctrl4Int1PadCtrl.int1_single_tap (b : Nat) : Nat := getField 6 1 b

def Ctrl4Int1PadCtrl.int1_6d (b : Nat) : Nat := getField 7 1 b

/-- CTRL5_INT2_PAD_CTRL single-bit fields, in declaration order
(`int2_drdy` at bit 0 up to `int2_sleep_state` at bit 7). -/
def Ctrl5Int2PadCtrl.int2_drdy (b : Nat) : Nat := getField 0 1 b

def Ctrl5Int2PadCtrl.int2_fth (b : Nat) : Nat := getField 1 1 b

def Ctrl5Int2PadCtrl.int2_diff5 (b : Nat) : Nat := getField 2 1 b

def Ctrl5Int2PadCtrl.int2_ovr (b : Nat) : Nat := getField 3 1 b

def Ctrl5Int2PadCtrl.int2_drdy_t (b : Nat) : Nat := getField 4 1 b

def Ctrl5Int2PadCtrl.int2_boot (b : Nat) : Nat := getField 5 1 b

def Ctrl5Int2PadCtrl.int2_sleep_chg (b : Nat) : Nat := getField 6 1 b

def Ctrl5Int2PadCtrl.int2_sleep_state (b : Nat) : Nat := getField 7 1 b

/-- CTRL6 field `low_noise` (bit 2; bits 0-1 are unused). -/
def Ctrl6.low_noise (b : Nat) : Nat := getField 2 1 b

/-- CTRL6 field `fds` (bit 3). -/
def Ctrl6.fds (b : Nat) : Nat := getField 3 1 b

/-- CTRL6 field `fs` (bits 4-5). -/
def Ctrl6.fs (b : Nat) : Nat := getField 4 2 b

/-- CTRL6 field `bw_filt` (bits 6-7). -/
def Ctrl6.bw_filt (b : Nat) : Nat := getField 6 2 b

def Ctrl6.set_low_noise (b v : Nat) : Nat := setField 2 1 b v

/-- CTRL7 field `interrupts_enable` (bit 5). -/
def Ctrl7.interrupts_enable (b : Nat) : Nat := getField 5 1 b

def Ctrl7.set_interrupts_enable (b v : Nat) : Nat := setField 5 1 b v

/-- WAKE_UP_DUR fields: `sleep_dur` bits 0-3, `stationary` bit 4,
`wake_dur` bits 5-6, `ff_dur` bit 7. -/
def WakeUpDur.sleep_dur (b : Nat) : Nat := getField 0 4 b

def WakeUpDur.stationary (b : Nat) : Nat := getField 4 1 b

def WakeUpDur.wake_dur (b : Nat) : Nat := getField 5 2 b

def WakeUpDur.ff_dur (b : Nat) : Nat := getField 7 1 b

def WakeUpDur.set_ff_dur (b v : Nat) : Nat := setField 7 1 b v

/-- FREE_FALL fields: `ff_ths` bits 0-2, `ff_dur` bits 3-7. -/
def FreeFall.ff_ths (b : Nat) : Nat := getField 0 3 b

def FreeFall.ff_dur (b : Nat) : Nat := getField 3 5 b

def FreeFall.set_ff_dur (b v : Nat) : Nat := setField 3 5 b v

/-- FIFO_CTRL fields: `fth` bits 0-4, `fmode` bits 5-7. -/
def FifoCtrl.fth (b : Nat) : Nat := getField 0 5 b

def FifoCtrl.fmode (b : Nat) : Nat := getField 5 3 b

def FifoCtrl.set_fth (b v : Nat) : Nat := setField 0 5 b v

def FifoCtrl.set_fmode (b v : Nat) : Nat := setField 5 3 b v

/-- OUT_X (16-bit register read from OUT_X_L/OUT_X_H, little endian):
2 unused bits, then the 14-bit two's-complement field `x`, which the
generated accessor sign-extends to a signed integer. -/
def OutX.x (raw : Nat) : Int :=
  let u := raw / 4 % 16384
  if u < 8192 then (u : Int) else (u : Int) - 16384

/-- OUT_Y: same layout as OUT_X. -/
def OutY.y (raw : Nat) : Int :=
  let u := raw / 4 % 16384
  if u < 8192 then (u : Int) else (u : Int) - 16384

/-- OUT_Z: same layout as OUT_X. -/
def OutZ.z (raw : Nat) : Int :=
  let u := raw / 4 % 16384
  if u < 8192 then (u : Int) else (u : Int) - 16384

/-- Read a 16-bit register as two little-endian byte reads. -/
def readReg16 (m : Mem) (addrLo addrHi : Nat) : Nat :=
  readReg m addrLo + 256 * readReg m addrHi

/-- Constant `PROPERTY_ENABLE` from `lib.rs`. -/
def PROPERTY_ENABLE : Nat := 1

/-- Constant `PROPERTY_DISABLE` from `lib.rs`. -/
def PROPERTY_DISABLE : Nat := 0

/-- Operating-mode enum `Mode` from `register/main.rs`, with the
`repr(u8)` discriminant of each named variant. -/
inductive Mode
  | HighPerformance
  | ContLowPwr4
  | ContLowPwr3
  | ContLowPwr2
  | ContLowPwr12bit
  | SingleLowPwr4
  | SingleLowPwr3
  | SingleLowPwr2
  | SingleLowPwr12bit
  | HighPerformanceLowNoise
  | ContLowPwrLowNoise4
  | ContLowPwrLowNoise3
  | ContLowPwrLowNoise2
  | ContLowPwrLowNoise12bit
  | SingleLowPwrLowNoise4
  | SingleLowPwrLowNoise3
  | SingleLowPwrLowNoise2
  | SingleLowLowNoisePwr12bit
  deriving DecidableEq

/-- The `repr(u8)` discriminant of a `Mode` variant. -/
def Mode.code : Mode → Nat
  | .HighPerformance => 0x04
  | .ContLowPwr4 => 0x03
  | .ContLowPwr3 => 0x02
  | .ContLowPwr2 => 0x01
  | .ContLowPwr12bit => 0x00
  | .SingleLowPwr4 => 0x0B
  | .SingleLowPwr3 => 0x0A
  | .SingleLowPwr2 => 0x09
  | .SingleLowPwr12bit => 0x08
  | .HighPerformanceLowNoise => 0x14
  | .ContLowPwrLowNoise4 => 0x13
  | .ContLowPwrLowNoise3 => 0x12
  | .ContLowPwrLowNoise2 => 0x11
  | .ContLowPwrLowNoise12bit => 0x10
  | .SingleLowPwrLowNoise4 => 0x1B
  | .SingleLowPwrLowNoise3 => 0x1A
  | .SingleLowPwrLowNoise2 => 0x19
  | .SingleLowLowNoisePwr12bit => 0x18

/-- `TryFrom<u8>` for `Mode` (derive_more `TryFrom` over the repr). -/
def Mode.tryFrom : Nat → Option Mode
  | 0x04 => some .HighPerformance
  | 0x03 => some .ContLowPwr4
  | 0x02 => some .ContLowPwr3
  | 0x01 => some .ContLowPwr2
  | 0x00 => some .ContLowPwr12bit
  | 0x0B => some .SingleLowPwr4
  | 0x0A => some .SingleLowPwr3
  | 0x09 => some .SingleLowPwr2
  | 0x08 => some .SingleLowPwr12bit
  | 0x14 => some .HighPerformanceLowNoise
  | 0x13 => some .ContLowPwrLowNoise4
  | 0x12 => some .ContLowPwrLowNoise3
  | 0x11 => some .ContLowPwrLowNoise2
  | 0x10 => some .ContLowPwrLowNoise12bit
  | 0x1B => some .SingleLowPwrLowNoise4
  | 0x1A => some .SingleLowPwrLowNoise3
  | 0x19 => some .SingleLowPwrLowNoise2
  | 0x18 => some .SingleLowLowNoisePwr12bit
  | _ => none

/-- `Mode::new(mode, lp_mode, low_noise)`: assemble
`(low_noise << 4) + (mode << 2) + lp_mode` and look it up, falling back to
the `ContLowPwr12bit` default variant on no match. -/
def Mode.new (mode lp_mode low_noise : Nat) : Mode :=
  (Mode.tryFrom (low_noise * 16 + mode * 4 + lp_mode)).getD .ContLowPwr12bit

/-- `Mode::mode`: `(repr & 0x0C) >> 2`. -/
def Mode.mode (v : Mode) : Nat := v.code / 4 % 4

/-- `Mode::lp_mode`: `repr & 0x3`. -/
def Mode.lp_mode (v : Mode) : Nat := v.code % 4

/-- `Mode::low_noise`: `(repr & 0x10) >> 4`. -/
def Mode.low_noise (v : Mode) : Nat := v.code / 16 % 2

/-- Output-data-rate enum `Odr` from `register/main.rs`. -/
inductive Odr
  | Off
  | _1_6hzLpOnly
  | _12_5hz
  | _25hz
  | _50hz
  | _100hz
  | _200hz
  | _400hz
  | _800hz
  | _1_6khz
  | SetSwTrig
  | SetPinTrig
  deriving DecidableEq

/-- The `repr(u8)` discriminant of an `Odr` variant. -/
def Odr.code : Odr → Nat
  | .Off => 0x00
  | ._1_6hzLpOnly => 0x01
  | ._12_5hz => 0x02
  | ._25hz => 0x03
  | ._50hz => 0x04
  | ._100hz => 0x05
  | ._200hz => 0x06
  | ._400hz => 0x07
  | ._800hz => 0x08
  | ._1_6khz => 0x09
  | .SetSwTrig => 0x12
  | .SetPinTrig => 0x22

/-- `TryFrom<u8>` for `Odr`. -/
def Odr.tryFrom : Nat → Option Odr
  | 0x00 => some .Off
  | 0x01 => some ._1_6hzLpOnly
  | 0x02 => some ._12_5hz
  | 0x03 => some ._25hz
  | 0x04 => some ._50hz
  | 0x05 => some ._100hz
  | 0x06 => some ._200hz
  | 0x07 => some ._400hz
  | 0x08 => some ._800hz
  | 0x09 => some ._1_6khz
  | 0x12 => some .SetSwTrig
  | 0x22 => some .SetPinTrig
  | _ => none

/-- `Odr::new(odr, slp_mode)`: `(slp_mode << 4) + odr`, default `Off`. -/
def Odr.new (odr slp_mode : Nat) : Odr :=
  (Odr.tryFrom (slp_mode * 16 + odr)).getD .Off

/-- `Odr::odr`: `repr & 0xF`. -/
def Odr.odr (v : Odr) : Nat := v.code % 16

/-- `Odr::slp_mode`: `(repr & 0x30) >> 4`. -/
def Odr.slp_mode (v : Odr) : Nat := v.code / 16 % 4

/-- Filtering-path enum `Fds` from `register/main.rs`. -/
inductive Fds
  | LpfOnOut
  | UserOffsetOnOut
  | HighPassOnOut
  deriving DecidableEq

/-- The `repr(u8)` discriminant of an `Fds` variant. -/
def Fds.code : Fds → Nat
  | .LpfOnOut => 0x00
  | .UserOffsetOnOut => 0x01
  | .HighPassOnOut => 0x10

/-- `TryFrom<u8>` for `Fds`. -/
def Fds.tryFrom : Nat → Option Fds
  | 0x00 => some .LpfOnOut
  | 0x01 => some .UserOffsetOnOut
  | 0x10 => some .HighPassOnOut
  | _ => none

/-- `Fds::new(fds, usr_off_on_out)`: `(fds << 4) + usr_off_on_out`,
default `LpfOnOut`. -/
def Fds.new (fds usr_off_on_out : Nat) : Fds :=
  (Fds.tryFrom (fds * 16 + usr_off_on_out)).getD .LpfOnOut

/-- `Fds::fds`: `(repr & 0x10) >> 4`. -/
def Fds.fds (v : Fds) : Nat := v.code / 16 % 2

/-- `Fds::usr_off_on_out`: `repr & 0x01`. -/
def Fds.usr_off_on_out (v : Fds) : Nat := v.code % 2

/-- Activity-detection enum `SleepOn` from `register/main.rs`. -/
inductive SleepOn
  | NoDetection
  | ActInact
  | StatMotion
  deriving DecidableEq

/-- The `repr(u8)` discriminant of a `SleepOn` variant. -/
def SleepOn.code : SleepOn → Nat
  | .NoDetection => 0
  | .ActInact => 1
  | .StatMotion => 3

/-- `TryFrom<u8>` for `SleepOn`. -/
def SleepOn.tryFrom : Nat → Option SleepOn
  | 0 => some .NoDetection
  | 1 => some .ActInact
  | 3 => some .StatMotion
  | _ => none

/-- `SleepOn::new(sleep_on, stationary)`: `(stationary << 1) + sleep_on`,
default `NoDetection`. -/
def SleepOn.new (sleep_on stationary : Nat) : SleepOn :=
  (SleepOn.tryFrom (stationary * 2 + sleep_on)).getD .NoDetection

/-- `SleepOn::sleep_on`: `repr & 0x01`. -/
def SleepOn.sleep_on (v : SleepOn) : Nat := v.code % 2

/-- `SleepOn::stationary`: `(repr & 0x02) >> 1`. -/
def SleepOn.stationary (v : SleepOn) : Nat := v.code / 2 % 2

/-- FIFO-mode enum `Fmode` from `register/main.rs`. -/
inductive Fmode
  | BypassMode
  | FifoMode
  | StreamToFifoMode
  | BypassToStreamMode
  | StreamMode
  deriving DecidableEq

/-- The `repr(u8)` discriminant of an `Fmode` variant. -/
def Fmode.code : Fmode → Nat
  | .BypassMode => 0
  | .FifoMode => 1
  | .StreamToFifoMode => 3
  | .BypassToStreamMode => 4
  | .StreamMode => 6

/-- `TryFrom<u8>` for `Fmode`. -/
def Fmode.tryFrom : Nat → Option Fmode
  | 0 => some .BypassMode
  | 1 => some .FifoMode
  | 3 => some .StreamToFifoMode
  | 4 => some .BypassToStreamMode
  | 6 => some .StreamMode
  | _ => none

/-- `power_mode_set`: read CTRL1, set its `mode` then `lp_mode` fields
from the variant, write CTRL1 back; then read CTRL6, set `low_noise`,
write CTRL6 back. -/
def power_mode_set (m : Mem) (val : Mode) : Mem :=
  let ctrl1 := readReg m Reg.Ctrl1
  let ctrl1 := Ctrl1.set_mode ctrl1 val.mode
  let ctrl1 := Ctrl1.set_lp_mode ctrl1 val.lp_mode
  let m := writeReg m Reg.Ctrl1 ctrl1
  let ctrl6 := readReg m Reg.Ctrl6
  let ctrl6 := Ctrl6.set_low_noise ctrl6 val.low_noise
  writeReg m Reg.Ctrl6 ctrl6

/-- `power_mode_get`: read CTRL1 and CTRL6 and repack the three fields
through `Mode::new`. -/
def power_mode_get (m : Mem) : Mode :=
  let ctrl1 := readReg m Reg.Ctrl1
  let ctrl6 := readReg m Reg.Ctrl6
  Mode.new (Ctrl1.mode ctrl1) (Ctrl1.lp_mode ctrl1) (Ctrl6.low_noise ctrl6)

/-- `pin_int1_route_set(val)`: read CTRL5 and CTRL7; if the bitwise OR of
the two CTRL5 sleep bits and the five CTRL4 event bits of `val` is
nonzero, set `interrupts_enable` to `PROPERTY_ENABLE`, else to
`PROPERTY_DISABLE`; then write `val` to CTRL4 and the updated CTRL7. -/
def pin_int1_route_set (m : Mem) (val : Nat) : Mem :=
  let ctrl5 := readReg m Reg.Ctrl5Int2PadCtrl
  let ctrl7 := readReg m Reg.Ctrl7
  let ctrl7 :=
    if (Ctrl5Int2PadCtrl.int2_sleep_state ctrl5 |||
        Ctrl5Int2PadCtrl.int2_sleep_chg ctrl5 |||
        Ctrl4Int1PadCtrl.int1_tap val |||
        Ctrl4Int1PadCtrl.int1_ff val |||
        Ctrl4Int1PadCtrl.int1_wu val |||
        Ctrl4Int1PadCtrl.int1_single_tap val |||
        Ctrl4Int1PadCtrl.int1_6d val) ≠ 0 then
      Ctrl7.set_interrupts_enable ctrl7 PROPERTY_ENABLE
    else
      Ctrl7.set_interrupts_enable ctrl7 PROPERTY_DISABLE
  let m := writeReg m Reg.Ctrl4Int1PadCtrl val
  writeReg m Reg.Ctrl7 ctrl7

/-- `pin_int2_route_set(val)`: symmetric to `pin_int1_route_set`, with
the two sleep bits taken from `val` and the five event bits from the
current CTRL4 contents. -/
def pin_int2_route_set (m : Mem) (val : Nat) : Mem :=
  let ctrl4 := readReg m Reg.Ctrl4Int1PadCtrl
  let ctrl7 := readReg m Reg.Ctrl7
  let ctrl7 :=
    if (Ctrl5Int2PadCtrl.int2_sleep_state val |||
        Ctrl5Int2PadCtrl.int2_sleep_chg val |||
        Ctrl4Int1PadCtrl.int1_tap ctrl4 |||
        Ctrl4Int1PadCtrl.int1_ff ctrl4 |||
        Ctrl4Int1PadCtrl.int1_wu ctrl4 |||
        Ctrl4Int1PadCtrl.int1_single_tap ctrl4 |||
        Ctrl4Int1PadCtrl.int1_6d ctrl4) ≠ 0 then
      Ctrl7.set_interrupts_enable ctrl7 PROPERTY_ENABLE
    else
      Ctrl7.set_interrupts_enable ctrl7 PROPERTY_DISABLE
  let m := writeReg m Reg.Ctrl5Int2PadCtrl val
  writeReg m Reg.Ctrl7 ctrl7

/-- `ff_dur_set(val)`: store bit 5 of `val` into the 1-bit `ff_dur` field
of WAKE_UP_DUR and bits 0-4 into the 5-bit `ff_dur` field of FREE_FALL,
then write both registers back. -/
def ff_dur_set (m : Mem) (val : Nat) : Mem :=
  let wake_up_dur := readReg m Reg.WakeUpDur
  let free_fall := readReg m Reg.FreeFall
  let wake_up_dur := WakeUpDur.set_ff_dur wake_up_dur (val / 32 % 2)
  let free_fall := FreeFall.set_ff_dur free_fall (val % 32)
  let m := writeReg m Reg.WakeUpDur wake_up_dur
  writeReg m Reg.FreeFall free_fall

/-- `ff_dur_get`: `(wake_up_dur.ff_dur() << 5) + free_fall.ff_dur()`. -/
def ff_dur_get (m : Mem) : Nat :=
  let wake_up_dur := readReg m Reg.WakeUpDur
  let free_fall := readReg m Reg.FreeFall
  WakeUpDur.ff_dur wake_up_dur * 32 + FreeFall.ff_dur free_fall

/-- `fifo_watermark_set(val)`: read FIFO_CTRL, set `fth`, write back. -/
def fifo_watermark_set (m : Mem) (val : Nat) : Mem :=
  let reg := readReg m Reg.FifoCtrl
  writeReg m Reg.FifoCtrl (FifoCtrl.set_fth reg val)

/-- `fifo_watermark_get`: the `fth` field of FIFO_CTRL. -/
def fifo_watermark_get (m : Mem) : Nat :=
  FifoCtrl.fth (readReg m Reg.FifoCtrl)

/-- `fifo_mode_set(val)`: read FIFO_CTRL, set `fmode` to the variant's
discriminant, write back. -/
def fifo_mode_set (m : Mem) (val : Fmode) : Mem :=
  let reg := readReg m Reg.FifoCtrl
  writeReg m Reg.FifoCtrl (FifoCtrl.set_fmode reg val.code)

/-- `fifo_mode_get`: decode the `fmode` field of FIFO_CTRL, falling back
to the `BypassMode` default variant on no match. -/
def fifo_mode_get (m : Mem) : Fmode :=
  (Fmode.tryFrom (FifoCtrl.fmode (readReg m Reg.FifoCtrl))).getD .BypassMode

/-- `acceleration_raw_get`: read OUT_X/OUT_Y/OUT_Z (two bytes each,
little endian) and return the three sign-extended 14-bit samples. -/
def acceleration_raw_get (m : Mem) : List Int :=
  [OutX.x (readReg16 m Reg.OutXL Reg.OutXH),
   OutY.y (readReg16 m Reg.OutYL Reg.OutYH),
   OutZ.z (readReg16 m Reg.OutZL Reg.OutZH)]

/-- Bus transport that can fail: a register memory plus a failure
schedule indexed by the number of bus operations performed so far.
A failing operation leaves the device memory untouched. -/
structure Bus where
  mem : Mem
  clock : Nat
  fails : Nat → Bool

/-- One transport read on the fallible bus. -/
def Bus.read (b : Bus) (addr : Nat) : Except Unit (Nat × Bus) :=
  if b.fails b.clock then .error ()
  else .ok (readReg b.mem addr, { b with clock := b.clock + 1 })

/-- One transport write on the fallible bus. -/
def Bus.write (b : Bus) (addr v : Nat) : Except Unit Bus :=
  if b.fails b.clock then .error ()
  else .ok { b with mem := writeReg b.mem addr v, clock := b.clock + 1 }

/-- `power_mode_set` over the fallible bus: each `?` in the Rust source
propagates the transport error immediately, with the device left in
whatever state the already-completed operations produced. -/
def power_mode_setF (b : Bus) (val : Mode) : Except Unit Unit × Bus :=
  match b.read Reg.Ctrl1 with
  | .error e => (.error e, b)
  | .ok (ctrl1, b) =>
    let ctrl1 := Ctrl1.set_mode ctrl1 val.mode
    let ctrl1 := Ctrl1.set_lp_mode ctrl1 val.lp_mode
    match b.write Reg.Ctrl1 ctrl1 with
    | .error e => (.error e, b)
    | .ok b =>
      match b.read Reg.Ctrl6 with
      | .error e => (.error e, b)
      | .ok (ctrl6, b) =>
        let ctrl6 := Ctrl6.set_low_noise ctrl6 val.low_noise
        match b.write Reg.Ctrl6 ctrl6 with
        | .error e => (.error e, b)
        | .ok b => (.ok (), b)

/-! Shared helper lemmas. -/

theorem readReg_writeReg_same (m : Mem) (a v : Nat) :
    readReg (writeReg m a v) a = v % 256 := by
  simp [readReg, writeReg]

theorem readReg_writeReg_ne (m : Mem) (a a' v : Nat) (h : a' ≠ a) :
    readReg (writeReg m a v) a' = readReg m a' := by
  simp [readReg, writeReg, h]

theorem getField_bit_le_one (k b : Nat) : getField k 1 b ≤ 1 := by
  have h : b / 2 ^ k % 2 ^ 1 < 2 ^ 1 := Nat.mod_lt _ (by norm_num)
  simpa [getField] using Nat.lt_succ_iff.mp h

theorem lor7_ne_zero_iff (a b c d e f g : Nat) (ha : a ≤ 1) (hb : b ≤ 1)
    (hc : c ≤ 1) (hd : d ≤ 1) (he : e ≤ 1) (hf : f ≤ 1) (hg : g ≤ 1) :
    (a ||| b ||| c ||| d ||| e ||| f ||| g ≠ 0) ↔
      (a ≠ 0 ∨ b ≠ 0 ∨ c ≠ 0 ∨ d ≠ 0 ∨ e ≠ 0 ∨ f ≠ 0 ∨ g ≠ 0) := by
  interval_cases a <;> interval_cases b <;> interval_cases c <;> interval_cases d <;>
    interval_cases e <;> interval_cases f <;> interval_cases g <;> decide

theorem interrupts_enable_of_set (b v : Nat) :
    Ctrl7.interrupts_enable (Ctrl7.set_interrupts_enable b v % 256) = v % 2 := by
  simp only [Ctrl7.interrupts_enable, Ctrl7.set_interrupts_enable, getField, setField]
  norm_num
  omega

/-! Claim theorems. -/

/-- Claim C3: for the composite enum types Mode, Odr, Fds and SleepOn,
unpacking any named variant into its sub-field values through the
accessors and re-packing them with the type's `new` constructor yields
the same variant. -/
theorem composite_enum_roundtrip :
    (∀ v : Mode, Mode.new v.mode v.lp_mode v.low_noise = v) ∧
    (∀ v : Odr, Odr.new v.odr v.slp_mode = v) ∧
    (∀ v : Fds, Fds.new v.fds v.usr_off_on_out = v) ∧
    (∀ v : SleepOn, SleepOn.new v.sleep_on v.stationary = v) := by
  refine ⟨?_, ?_, ?_, ?_⟩ <;> intro v <;> cases v <;> rfl

/-- Witness for C3 at concrete variants. -/
theorem composite_enum_roundtrip_witness :
    Mode.new (Mode.mode .HighPerformance) (Mode.lp_mode .HighPerformance)
        (Mode.low_noise .HighPerformance) = .HighPerformance ∧
    Odr.new (Odr.odr ._400hz) (Odr.slp_mode ._400hz) = ._400hz ∧
    Fds.new (Fds.fds .HighPassOnOut) (Fds.usr_off_on_out .HighPassOnOut) = .HighPassOnOut ∧
    SleepOn.new (SleepOn.sleep_on .StatMotion) (SleepOn.stationary .StatMotion) = .StatMotion :=
  ⟨composite_enum_roundtrip.1 _, composite_enum_roundtrip.2.1 _,
   composite_enum_roundtrip.2.2.1 _, composite_enum_roundtrip.2.2.2 _⟩

/-- Claim C4: `ff_dur_set(0x25)` stores 1 into the 1-bit `ff_dur` field of
WAKE_UP_DUR and 0x05 into the 5-bit `ff_dur` field of FREE_FALL, for any
prior register content, and `ff_dur_get` then reconstructs 0x25. -/
theorem ff_dur_split_0x25 (m : Mem) :
    WakeUpDur.ff_dur (readReg (ff_dur_set m 0x25) Reg.WakeUpDur) = 1 ∧
    FreeFall.ff_dur (readReg (ff_dur_set m 0x25) Reg.FreeFall) = 0x05 ∧
    ff_dur_get (ff_dur_set m 0x25) = 0x25 := by
  simp only [ff_dur_set, ff_dur_get, readReg, writeReg, WakeUpDur.ff_dur,
    WakeUpDur.set_ff_dur, FreeFall.ff_dur, FreeFall.set_ff_dur, getField, setField,
    Reg.WakeUpDur, Reg.FreeFall]
  norm_num
  omega

/-- Witness for C4 on the all-ones memory. -/
theorem ff_dur_split_0x25_witness :
    WakeUpDur.ff_dur (readReg (ff_dur_set (fun _ => 0xFF) 0x25) Reg.WakeUpDur) = 1 ∧
    FreeFall.ff_dur (readReg (ff_dur_set (fun _ => 0xFF) 0x25) Reg.FreeFall) = 0x05 ∧
    ff_dur_get (ff_dur_set (fun _ => 0xFF) 0x25) = 0x25 :=
  ff_dur_split_0x25 (fun _ => 0xFF)

/-- Claim C5: for every composite or numeric-backed enum, a raw bit
pattern matching no named variant decodes to the type's default variant,
and the FIFO-mode getter in particular returns the default variant (never
an error) on reserved 3-bit patterns. -/
theorem decode_reserved_default :
    (∀ mode lp_mode low_noise : Nat,
      Mode.tryFrom (low_noise * 16 + mode * 4 + lp_mode) = none →
        Mode.new mode lp_mode low_noise = Mode.ContLowPwr12bit) ∧
    (∀ odr slp_mode : Nat,
      Odr.tryFrom (slp_mode * 16 + odr) = none → Odr.new odr slp_mode = Odr.Off) ∧
    (∀ fds usr_off_on_out : Nat,
      Fds.tryFrom (fds * 16 + usr_off_on_out) = none →
        Fds.new fds usr_off_on_out = Fds.LpfOnOut) ∧
    (∀ sleep_on stationary : Nat,
      SleepOn.tryFrom (stationary * 2 + sleep_on) = none →
        SleepOn.new sleep_on stationary = SleepOn.NoDetection) ∧
    (∀ m : Mem,
      Fmode.tryFrom (FifoCtrl.fmode (readReg m Reg.FifoCtrl)) = none →
        fifo_mode_get m = Fmode.BypassMode) := by
  refine ⟨?_, ?_, ?_, ?_, ?_⟩
  · intro mode lp_mode low_noise h
    simp [Mode.new, h]
  · intro odr slp_mode h
    simp [Odr.new, h]
  · intro fds usr h
    simp [Fds.new, h]
  · intro s st h
    simp [SleepOn.new, h]
  · intro m h
    simp [fifo_mode_get, h]

/-- Witness for C5 at concrete reserved patterns (codes 0x05, 0x0A, 0x02,
0x02 and FIFO_CTRL byte 0x40 whose fmode field is the reserved 2). -/
theorem decode_reserved_default_witness :
    Mode.new 1 1 0 = Mode.ContLowPwr12bit ∧
    Odr.new 10 0 = Odr.Off ∧
    Fds.new 0 2 = Fds.LpfOnOut ∧
    SleepOn.new 0 1 = SleepOn.NoDetection ∧
    fifo_mode_get (fun _ => 0x40) = Fmode.BypassMode :=
  ⟨decode_reserved_default.1 1 1 0 rfl,
   decode_reserved_default.2.1 10 0 rfl,
   decode_reserved_default.2.2.1 0 2 rfl,
   decode_reserved_default.2.2.2.1 0 1 rfl,
   decode_reserved_default.2.2.2.2 (fun _ => 0x40) rfl⟩

theorem route_enable_eq (c5s c5c t f w s d base : Nat) (hc5s : c5s ≤ 1)
    (hc5c : c5c ≤ 1) (ht : t ≤ 1) (hf : f ≤ 1) (hw : w ≤ 1) (hs : s ≤ 1) (hd : d ≤ 1) :
    Ctrl7.interrupts_enable
      ((if (c5s ||| c5c ||| t ||| f ||| w ||| s ||| d) ≠ 0 then
          Ctrl7.set_interrupts_enable base PROPERTY_ENABLE
        else
          Ctrl7.set_interrupts_enable base PROPERTY_DISABLE) % 256) =
      if t ≠ 0 ∨ f ≠ 0 ∨ w ≠ 0 ∨ s ≠ 0 ∨ d ≠ 0 ∨ c5c ≠ 0 ∨ c5s ≠ 0 then 1 else 0 := by
  have hiff : (c5s ||| c5c ||| t ||| f ||| w ||| s ||| d ≠ 0) ↔
      (t ≠ 0 ∨ f ≠ 0 ∨ w ≠ 0 ∨ s ≠ 0 ∨ d ≠ 0 ∨ c5c ≠ 0 ∨ c5s ≠ 0) := by
    rw [lor7_ne_zero_iff c5s c5c t f w s d hc5s hc5c ht hf hw hs hd]
    tauto
  rw [apply_ite (fun x => Ctrl7.interrupts_enable (x % 256)),
    interrupts_enable_of_set, interrupts_enable_of_set]
  simp only [hiff, PROPERTY_ENABLE, PROPERTY_DISABLE]

/-- Claim C1 counterexample: route only the data-ready signal to INT1
(CTRL4 byte 0x01) on a device with all registers zero.  The OR of all
eight enable bits of both pad-control registers is then 1 (int1_drdy is
set), yet the routine writes 0 into `interrupts_enable`: the code only
considers the five event bits of CTRL4 and the two sleep bits of CTRL5,
not all eight bits of each register. -/
theorem pin_int1_route_counterexample :
    Ctrl4Int1PadCtrl.int1_drdy
        (readReg (pin_int1_route_set (fun _ => 0) 1) Reg.Ctrl4Int1PadCtrl) = 1 ∧
    Ctrl7.interrupts_enable (readReg (pin_int1_route_set (fun _ => 0) 1) Reg.Ctrl7) = 0 := by
  decide

/-- Claim C1 as amended: after `pin_int1_route_set`, the
`interrupts_enable` bit of CTRL7 equals the OR of the five event-routing
bits (tap, free-fall, wake-up, single-tap, 6D) of the written CTRL4 value
and the two sleep bits (sleep-change, sleep-state) of the current CTRL5
register — not of all eight bits of both registers; symmetrically for
`pin_int2_route_set`. -/
theorem interrupts_enable_or_of_event_bits (m : Mem) (val : Nat) :
    (Ctrl7.interrupts_enable (readReg (pin_int1_route_set m val) Reg.Ctrl7) =
      if Ctrl4Int1PadCtrl.int1_tap val ≠ 0 ∨ Ctrl4Int1PadCtrl.int1_ff val ≠ 0 ∨
          Ctrl4Int1PadCtrl.int1_wu val ≠ 0 ∨ Ctrl4Int1PadCtrl.int1_single_tap val ≠ 0 ∨
          Ctrl4Int1PadCtrl.int1_6d val ≠ 0 ∨
          Ctrl5Int2PadCtrl.int2_sleep_chg (readReg m Reg.Ctrl5Int2PadCtrl) ≠ 0 ∨
          Ctrl5Int2PadCtrl.int2_sleep_state (readReg m Reg.Ctrl5Int2PadCtrl) ≠ 0
        then 1 else 0) ∧
    (Ctrl7.interrupts_enable (readReg (pin_int2_route_set m val) Reg.Ctrl7) =
      if Ctrl4Int1PadCtrl.int1_tap (readReg m Reg.Ctrl4Int1PadCtrl) ≠ 0 ∨
          Ctrl4Int1PadCtrl.int1_ff (readReg m Reg.Ctrl4Int1PadCtrl) ≠ 0 ∨
          Ctrl4Int1PadCtrl.int1_wu (readReg m Reg.Ctrl4Int1PadCtrl) ≠ 0 ∨
          Ctrl4Int1PadCtrl.int1_single_tap (readReg m Reg.Ctrl4Int1PadCtrl) ≠ 0 ∨
          Ctrl4Int1PadCtrl.int1_6d (readReg m Reg.Ctrl4Int1PadCtrl) ≠ 0 ∨
          Ctrl5Int2PadCtrl.int2_sleep_chg val ≠ 0 ∨
          Ctrl5Int2PadCtrl.int2_sleep_state val ≠ 0
        then 1 else 0) := by
  constructor
  · simp only [pin_int1_route_set]
    rw [readReg_writeReg_same]
    exact route_enable_eq _ _ _ _ _ _ _ _ (getField_bit_le_one 7 _)
      (getField_bit_le_one 6 _) (getField_bit_le_one 3 _) (getField_bit_le_one 4 _)
      (getField_bit_le_one 5 _) (getField_bit_le_one 6 _) (getField_bit_le_one 7 _)
  · simp only [pin_int2_route_set]
    rw [readReg_writeReg_same]
    exact route_enable_eq _ _ _ _ _ _ _ _ (getField_bit_le_one 7 _)
      (getField_bit_le_one 6 _) (getField_bit_le_one 3 _) (getField_bit_le_one 4 _)
      (getField_bit_le_one 5 _) (getField_bit_le_one 6 _) (getField_bit_le_one 7 _)

/-- Witness for the amended C1 on a concrete memory and routing value. -/
theorem interrupts_enable_or_of_event_bits_witness :
    Ctrl7.interrupts_enable
        (readReg (pin_int1_route_set (fun _ => 0x00) 0x08) Reg.Ctrl7) =
      (if Ctrl4Int1PadCtrl.int1_tap 0x08 ≠ 0 ∨ Ctrl4Int1PadCtrl.int1_ff 0x08 ≠ 0 ∨
          Ctrl4Int1PadCtrl.int1_wu 0x08 ≠ 0 ∨ Ctrl4Int1PadCtrl.int1_single_tap 0x08 ≠ 0 ∨
          Ctrl4Int1PadCtrl.int1_6d 0x08 ≠ 0 ∨
          Ctrl5Int2PadCtrl.int2_sleep_chg (readReg (fun _ => 0x00) Reg.Ctrl5Int2PadCtrl) ≠ 0 ∨
          Ctrl5Int2PadCtrl.int2_sleep_state (readReg (fun _ => 0x00) Reg.Ctrl5Int2PadCtrl) ≠ 0
        then 1 else 0) :=
  (interrupts_enable_or_of_event_bits (fun _ => 0x00) 0x08).1

/-- Claim C2 counterexample: the field combination
{mode=0x1, lp_mode=0x0, low_noise=0x1} packs to code 0x14, which is the
`HighPerformanceLowNoise` variant, not `ContLowPwrLowNoise2` (0x11). -/
theorem mode_fields_counterexample :
    Mode.new 1 0 1 = Mode.HighPerformanceLowNoise ∧
    Mode.new 1 0 1 ≠ Mode.ContLowPwrLowNoise2 := by
  decide

/-- Claim C2 as amended: the "continuous low-power-2 with low noise"
variant `ContLowPwrLowNoise2` corresponds to the field values
{mode=0x0, lp_mode=0x1, low_noise=0x1}, and `power_mode_set` with that
variant followed by `power_mode_get` over the mock transport returns the
same variant. -/
theorem power_mode_roundtrip_cont_low_pwr2 (m : Mem) :
    Mode.new 0 1 1 = Mode.ContLowPwrLowNoise2 ∧
    Mode.mode Mode.ContLowPwrLowNoise2 = 0 ∧
    Mode.lp_mode Mode.ContLowPwrLowNoise2 = 1 ∧
    Mode.low_noise Mode.ContLowPwrLowNoise2 = 1 ∧
    power_mode_get (power_mode_set m Mode.ContLowPwrLowNoise2) = Mode.ContLowPwrLowNoise2 := by
  refine ⟨rfl, rfl, rfl, rfl, ?_⟩
  simp only [power_mode_set, power_mode_get]
  rw [readReg_writeReg_ne _ _ _ _ (by norm_num [Reg.Ctrl1, Reg.Ctrl6]),
    readReg_writeReg_same, readReg_writeReg_same,
    readReg_writeReg_ne _ _ _ _ (by norm_num [Reg.Ctrl1, Reg.Ctrl6])]
  have h1 : Ctrl1.mode (Ctrl1.set_lp_mode
      (Ctrl1.set_mode (readReg m Reg.Ctrl1) (Mode.mode Mode.ContLowPwrLowNoise2))
      (Mode.lp_mode Mode.ContLowPwrLowNoise2) % 256) = 0 := by
    simp only [Ctrl1.mode, Ctrl1.set_lp_mode, Ctrl1.set_mode, Mode.mode, Mode.lp_mode,
      Mode.code, getField, setField, readReg]
    norm_num
    omega
  have h2 : Ctrl1.lp_mode (Ctrl1.set_lp_mode
      (Ctrl1.set_mode (readReg m Reg.Ctrl1) (Mode.mode Mode.ContLowPwrLowNoise2))
      (Mode.lp_mode Mode.ContLowPwrLowNoise2) % 256) = 1 := by
    simp only [Ctrl1.lp_mode, Ctrl1.set_lp_mode, Ctrl1.set_mode, Mode.mode, Mode.lp_mode,
      Mode.code, getField, setField, readReg]
    norm_num
    omega
  have h3 : Ctrl6.low_noise (Ctrl6.set_low_noise (readReg m Reg.Ctrl6)
      (Mode.low_noise Mode.ContLowPwrLowNoise2) % 256) = 1 := by
    simp only [Ctrl6.low_noise, Ctrl6.set_low_noise, Mode.low_noise,
      Mode.code, getField, setField, readReg]
    norm_num
    omega
  rw [h1, h2, h3]
  decide

/-- Witness for the amended C2 on a concrete memory. -/
theorem power_mode_roundtrip_cont_low_pwr2_witness :
    power_mode_get (power_mode_set (fun _ => 0xAB) Mode.ContLowPwrLowNoise2) =
      Mode.ContLowPwrLowNoise2 :=
  (power_mode_roundtrip_cont_low_pwr2 (fun _ => 0xAB)).2.2.2.2

/-- Claim C6: `fifo_mode_set` touches only the `fmode` field of
FIFO_CTRL: for arbitrary prior byte content the watermark read back after
setting bypass mode is unchanged, and a watermark value within the 5-bit
field width survives a subsequent `fifo_mode_set(BypassMode)`. -/
theorem fifo_watermark_independent (m : Mem) (w : Nat) (hw : w < 32) :
    fifo_watermark_get (fifo_mode_set m Fmode.BypassMode) = fifo_watermark_get m ∧
    fifo_watermark_get (fifo_mode_set (fifo_watermark_set m w) Fmode.BypassMode) = w := by
  constructor
  · simp only [fifo_watermark_get, fifo_mode_set, FifoCtrl.fth, FifoCtrl.set_fmode,
      Fmode.code, getField, setField, readReg, writeReg, Reg.FifoCtrl]
    norm_num
  · simp only [fifo_watermark_get, fifo_mode_set, fifo_watermark_set, FifoCtrl.fth,
      FifoCtrl.set_fth, FifoCtrl.set_fmode, Fmode.code, getField, setField,
      readReg, writeReg, Reg.FifoCtrl]
    norm_num
    omega

/-- Witness for C6 on a concrete memory and watermark. -/
theorem fifo_watermark_independent_witness :
    0x15 < 32 ∧
    fifo_watermark_get (fifo_mode_set (fun _ => 0xFF) Fmode.BypassMode) =
      fifo_watermark_get (fun _ => 0xFF) ∧
    fifo_watermark_get
        (fifo_mode_set (fifo_watermark_set (fun _ => 0xFF) 0x15) Fmode.BypassMode) = 0x15 :=
  ⟨by decide, (fifo_watermark_independent (fun _ => 0xFF) 0x15 (by decide)).1,
   (fifo_watermark_independent (fun _ => 0xFF) 0x15 (by decide)).2⟩

/-- Claim C7: in `power_mode_set`, when the three leading bus operations
succeed and the final CTRL6 write fails, the transport error is returned
unchanged and CTRL1 retains the newly written `mode` and `lp_mode`
values, while CTRL6 is left untouched: no rollback, no retry. -/
theorem power_mode_set_partial_failure (mem0 : Mem) (fails : Nat → Bool) (val : Mode)
    (h0 : fails 0 = false) (h1 : fails 1 = false) (h2 : fails 2 = false)
    (h3 : fails 3 = true) :
    (power_mode_setF ⟨mem0, 0, fails⟩ val).1 = Except.error () ∧
    Ctrl1.mode (readReg (power_mode_setF ⟨mem0, 0, fails⟩ val).2.mem Reg.Ctrl1) =
      Mode.mode val ∧
    Ctrl1.lp_mode (readReg (power_mode_setF ⟨mem0, 0, fails⟩ val).2.mem Reg.Ctrl1) =
      Mode.lp_mode val ∧
    (power_mode_setF ⟨mem0, 0, fails⟩ val).2.mem Reg.Ctrl6 = mem0 Reg.Ctrl6 := by
  have hm : Mode.mode val < 4 := Nat.mod_lt _ (by norm_num)
  have hl : Mode.lp_mode val < 4 := Nat.mod_lt _ (by norm_num)
  simp [power_mode_setF, Bus.read, Bus.write, h0, h1, h2, h3]
  refine ⟨?_, ?_, ?_⟩
  · simp only [Ctrl1.mode, Ctrl1.set_lp_mode, Ctrl1.set_mode, getField, setField,
      readReg, writeReg, Reg.Ctrl1]
    norm_num
    omega
  · simp only [Ctrl1.lp_mode, Ctrl1.set_lp_mode, Ctrl1.set_mode, getField, setField,
      readReg, writeReg, Reg.Ctrl1]
    norm_num
    omega
  · simp [writeReg, Reg.Ctrl1, Reg.Ctrl6]

/-- Witness for C7: the schedule failing exactly at the fourth bus
operation, on the all-zero memory, with the high-performance mode. -/
theorem power_mode_set_partial_failure_witness :
    (power_mode_setF ⟨fun _ => 0, 0, fun n => n == 3⟩ Mode.HighPerformance).1 =
      Except.error () ∧
    Ctrl1.mode (readReg (power_mode_setF ⟨fun _ => 0, 0, fun n => n == 3⟩
      Mode.HighPerformance).2.mem Reg.Ctrl1) = Mode.mode Mode.HighPerformance ∧
    Ctrl1.lp_mode (readReg (power_mode_setF ⟨fun _ => 0, 0, fun n => n == 3⟩
      Mode.HighPerformance).2.mem Reg.Ctrl1) = Mode.lp_mode Mode.HighPerformance ∧
    (power_mode_setF ⟨fun _ => 0, 0, fun n => n == 3⟩
      Mode.HighPerformance).2.mem Reg.Ctrl6 = (fun _ => (0 : Nat)) Reg.Ctrl6 :=
  power_mode_set_partial_failure (fun _ => 0) (fun n => n == 3) Mode.HighPerformance
    rfl rfl rfl rfl

/-- Claim C8: the 14-bit acceleration field (bits 2-15 of the 16-bit
output register) sign-extends from its occupied width: whenever the top
occupied bit (bit 15 of the register) is set, the accessor returns the
two's-complement value `field - 2^14`, which is negative and no smaller
than -8192; and the raw pattern 10000000000000 (register content 0x8000)
decodes to -8192 through `acceleration_raw_get`. -/
theorem accel_sign_extension (raw : Nat) (hraw : raw < 65536)
    (htop : raw / 32768 % 2 = 1) :
    OutX.x raw = ((raw / 4 : Nat) : Int) - 16384 ∧
    OutY.y raw = ((raw / 4 : Nat) : Int) - 16384 ∧
    OutZ.z raw = ((raw / 4 : Nat) : Int) - 16384 ∧
    OutX.x raw < 0 ∧ -8192 ≤ OutX.x raw ∧
    acceleration_raw_get
        (fun a => if a = Reg.OutXH then 0x80 else 0) = [-8192, 0, 0] := by
  refine ⟨?_, ?_, ?_, ?_, ?_, by decide⟩ <;>
  · simp only [OutX.x, OutY.y, OutZ.z]
    split <;> omega

/-- Witness for C8 at register content 0xA000 (field 0x2800, bit 15
set), which decodes to 0x2800 - 0x4000 = -6144. -/
theorem accel_sign_extension_witness :
    (0xA000 : Nat) < 65536 ∧ (0xA000 : Nat) / 32768 % 2 = 1 ∧
    OutX.x 0xA000 = ((0xA000 / 4 : Nat) : Int) - 16384 ∧ OutX.x 0xA000 < 0 :=
  ⟨by decide, by decide,
   (accel_sign_extension 0xA000 (by decide) (by decide)).1,
   (accel_sign_extension 0xA000 (by decide) (by decide)).2.2.2.1⟩

/-- Claim C9: `fifo_watermark_set` is total over its byte argument: any
value, also one exceeding the 5-bit field width, is silently truncated to
the field width, and the adjacent `fmode` field is untouched. -/
theorem fifo_watermark_set_total (m : Mem) (val : Nat) :
    FifoCtrl.fth (readReg (fifo_watermark_set m val) Reg.FifoCtrl) = val % 32 ∧
    FifoCtrl.fmode (readReg (fifo_watermark_set m val) Reg.FifoCtrl) =
      FifoCtrl.fmode (readReg m Reg.FifoCtrl) := by
  constructor <;>
  · simp only [fifo_watermark_set, FifoCtrl.fth, FifoCtrl.fmode, FifoCtrl.set_fth,
      getField, setField, readReg, writeReg, Reg.FifoCtrl]
    norm_num
    omega

/-- Witness for C9 at the out-of-range watermark 0xFF. -/
theorem fifo_watermark_set_total_witness :
    FifoCtrl.fth (readReg (fifo_watermark_set (fun _ => 0xE0) 0xFF) Reg.FifoCtrl) =
      0xFF % 32 ∧
    FifoCtrl.fmode (readReg (fifo_watermark_set (fun _ => 0xE0) 0xFF) Reg.FifoCtrl) =
      FifoCtrl.fmode (readReg (fun _ => 0xE0) Reg.FifoCtrl) :=
  fifo_watermark_set_total (fun _ => 0xE0) 0xFF

/-- Claim C10: after `ff_dur_set(val)` the getter returns `val % 64`
(bits 6 and 7 of the argument are discarded), so the set-then-get round
trip is the identity exactly when `val < 0x40`. -/
theorem ff_dur_roundtrip_mask (m : Mem) (val : Nat) :
    ff_dur_get (ff_dur_set m val) = val % 64 ∧
    (ff_dur_get (ff_dur_set m val) = val ↔ val < 64) := by
  simp only [ff_dur_set, ff_dur_get, WakeUpDur.ff_dur, WakeUpDur.set_ff_dur,
    FreeFall.ff_dur, FreeFall.set_ff_dur, getField, setField, readReg, writeReg,
    Reg.WakeUpDur, Reg.FreeFall]
  norm_num
  omega

/-- Witness for C10 at value 0x65, whose round trip returns 0x25. -/
theorem ff_dur_roundtrip_mask_witness :
    ff_dur_get (ff_dur_set (fun _ => 0) 0x65) = 0x65 % 64 ∧
    (ff_dur_get (ff_dur_set (fun _ => 0) 0x65) = 0x65 ↔ 0x65 < 64) :=
  ff_dur_roundtrip_mask (fun _ => 0) 0x65

end Iis2dlpc

